import Mathlib

/- Verification of the animation scheduling engine of src/script.js
   (class NASA_AnimationController, lines 204-437).

   Shallow embedding conventions:
   * JS numbers are modelled as rationals (ℚ).  JS `NaN` has no rational
     counterpart; where the source can produce `NaN` (array interpolation
     reading past the end of `to`, line 329) the embedding uses `Option ℚ`
     with `none` standing for `NaN`.
   * The mutable `Map` of tweens is an association list in insertion order,
     which matches the iteration order of a JS `Map`.
   * Callbacks (`onStart`, `onUpdate`, `onComplete`, per-frame callbacks) are
     external code.  Their invocations are recorded as `Event`s; whether a
     callback throws is modelled by a boolean on the owning object.  A thrown
     exception is modelled by a `Bool` flag that propagates exactly where the
     source lets the exception propagate (there is no try/catch in
     `updateAnimations`; there is one in `executeAnimationCallbacks`).
   * `updatePhysics` (lines 367-409) reads and writes only DOM state
     (`document.querySelectorAll`, element datasets); it touches none of the
     controller fields modelled here and is therefore not part of the state
     transition.
-/

namespace NasaAnim

attribute [local semireducible] Rat.add Rat.mul Rat.sub Rat.inv Rat.ofScientific

/-- `Math.min` on JS numbers (restricted to two arguments, as used at
line 224).  Written out with `if` so that concrete runs reduce. -/
def jsMin (a b : ℚ) : ℚ := if a ≤ b then a else b

/-- `Math.max` on JS numbers (restricted to two arguments, as used at
line 319). -/
def jsMax (a b : ℚ) : ℚ := if b ≤ a then a else b

/-- A JS value that can appear in a tween's `from` / `to` configuration
fields.  The source (lines 325-331) distinguishes exactly two shapes:
`typeof x === 'number'` and `Array.isArray(x)`. -/
inductive Value where
  | num (x : ℚ)
  | arr (xs : List ℚ)
deriving DecidableEq

/-- The computed `currentValue` of a tween.  Entries of an interpolated array
are `Option ℚ`: `none` models the JS `NaN` produced at line 329 when `to[i]`
is `undefined` because the `to` array is shorter than `from`. -/
inductive CurValue where
  | num (x : ℚ)
  | arr (xs : List (Option ℚ))
deriving DecidableEq

/-- One observable callback invocation made by the engine:
`onStart` (line 308), `onUpdate(currentValue, easedProgress, tween)`
(line 334, the tween argument is omitted here), `onComplete` (line 350). -/
inductive Event where
  | start (key : String)
  | update (key : String) (currentValue : Option CurValue) (easedProgress : ℚ)
  | complete (key : String)
deriving DecidableEq

/-- A tween, i.e. one entry of `this.animations` (built at lines 249-263).
JS field names `from` and `to` are Lean keywords and appear here as
`fromVal` / `toVal`.  The `onUpdate` callback supplied by the caller is
external code; the only aspect of it the engine can observe is whether it
throws, modelled by `onUpdateThrows`.  `currentValue` starts out absent
(`none`): `createAnimation` never assigns it. -/
structure Tween where
  fromVal : Value
  toVal : Value
  duration : ℚ
  currentTime : ℚ := 0
  progress : ℚ := 0
  isPlaying : Bool := false
  isComplete : Bool := false
  reverse : Bool := false
  yoyo : Bool := false
  «repeat» : Nat := 0
  repeatCount : Nat := 0
  currentValue : Option CurValue := none
  easing : ℚ → ℚ
  onUpdateThrows : Bool := false

/-- `easeInOutQuad` (line 272): `t < 0.5 ? 2*t*t : 1 - (-2*t+2)^2/2`. -/
def easeInOutQuad (t : ℚ) : ℚ :=
  if t < 1/2 then 2 * t * t else 1 - (-2 * t + 2) ^ 2 / 2

/-- `easeInOutCubic` (line 273): `t < 0.5 ? 4*t*t*t : 1 - (-2*t+2)^3/2`. -/
def easeInOutCubic (t : ℚ) : ℚ :=
  if t < 1/2 then 4 * t * t * t else 1 - (-2 * t + 2) ^ 3 / 2

/-- `easeOutBounce` (lines 278-291), the four-segment Penner bounce. -/
def easeOutBounce (t : ℚ) : ℚ :=
  if t < 1 / (11/4) then (121/16) * t * t
  else if t < 2 / (11/4) then (121/16) * (t - (3/2) / (11/4)) * (t - (3/2) / (11/4)) + 3/4
  else if t < (5/2) / (11/4) then (121/16) * (t - (9/4) / (11/4)) * (t - (9/4) / (11/4)) + 15/16
  else (121/16) * (t - (21/8) / (11/4)) * (t - (21/8) / (11/4)) + 63/64

/-- `easeLaunch` (line 293): `1 - (1-t)^3`. -/
def easeLaunch (t : ℚ) : ℚ := 1 - (1 - t) ^ 3

/-- `easeOrbit` (lines 294-296), textually identical to `easeInOutQuad`. -/
def easeOrbit (t : ℚ) : ℚ :=
  if t < 1/2 then 2 * t * t else 1 - (-2 * t + 2) ^ 2 / 2

/-- `getEasingFunction` (lines 269-300): look the curve up by name, falling
back to `easeInOutQuad` for any unknown name
(`easingFunctions[name] || easingFunctions.easeInOutQuad`).
`easeOutElastic` (lines 274-277) uses `2^(-10 t) * sin(...)`, which is
transcendental and has no exact rational embedding; no claim refers to it,
so it is left out of the table and the name "easeOutElastic" falls through
to the default here (the only divergence from the source table). -/
def getEasingFunction (name : String) : ℚ → ℚ :=
  if name = "easeInOutQuad" then easeInOutQuad
  else if name = "easeInOutCubic" then easeInOutCubic
  else if name = "easeOutBounce" then easeOutBounce
  else if name = "easeLaunch" then easeLaunch
  else if name = "easeOrbit" then easeOrbit
  else easeInOutQuad

/-- The recognized `createAnimation` config options
`{ from, to, duration, easing?, yoyo?, repeat? }` plus the observable aspect
of the optional `onUpdate` callback (whether it throws).  `none` models an
absent property. -/
structure Config where
  fromVal : Value
  toVal : Value
  duration : ℚ
  easing : Option String := none
  yoyo : Option Bool := none
  «repeat» : Option Nat := none
  onUpdateThrows : Bool := false

/-- `this.animations.get(key)` over the insertion-ordered association list. -/
def mapGet (key : String) : List (String × Tween) → Option Tween
  | [] => none
  | (k, t) :: rest => if k = key then some t else mapGet key rest

/-- `this.animations.set(key, v)`: a JS `Map.set` replaces the value in
place when the key is present (keeping its insertion position) and appends
otherwise. -/
def mapSet (key : String) (v : Tween) : List (String × Tween) → List (String × Tween)
  | [] => [(key, v)]
  | (k, w) :: rest => if k = key then (key, v) :: rest else (k, w) :: mapSet key v rest

/-- `createAnimation(key, config)` (lines 248-267).  The source builds the
tween as an object literal `{ ...config, currentTime: 0, ..., yoyo: false,
repeat: 0, ... }`; in a JS object literal a later property wins, so the
literal's `yoyo: false` and `repeat: 0` (lines 256-257) overwrite whatever
`config.yoyo` / `config.repeat` supplied.  The embedding spells that
clobbering out field by field.  `easing` is honored via
`getEasingFunction(config.easing || 'easeInOutQuad')` (line 262), and the
callbacks are honored (lines 259-261). -/
def createAnimation (key : String) (config : Config)
    (animations : List (String × Tween)) : List (String × Tween) :=
  let animation : Tween := {
    fromVal := config.fromVal
    toVal := config.toVal
    duration := config.duration
    currentTime := 0
    progress := 0
    isPlaying := false
    isComplete := false
    reverse := false
    yoyo := false
    «repeat» := 0
    repeatCount := 0
    currentValue := none
    easing := getEasingFunction (config.easing.getD "easeInOutQuad")
    onUpdateThrows := config.onUpdateThrows }
  mapSet key animation animations

/-- `playAnimation(key)` (lines 302-309): no-op when the key is absent,
otherwise set `isPlaying = true`, `isComplete = false` and invoke
`onStart` (recorded as an `Event.start`). -/
def playAnimation (key : String) (animations : List (String × Tween)) :
    List (String × Tween) × List Event :=
  match mapGet key animations with
  | none => (animations, [])
  | some animation =>
      (mapSet key { animation with isPlaying := true, isComplete := false } animations,
       [Event.start key])

/-- The value-update step (lines 325-331).  Returns `some` of the new
`currentValue` when the source's `if` / `else if` assigns one (both numbers,
or both arrays) and `none` when neither branch fires, in which case the
source leaves `animation.currentValue` untouched.  In the both-arrays case
the source maps over `from`; an index past the end of `to` reads
`undefined` and produces `NaN`, modelled by a `none` entry. -/
def interpValue (fromVal toVal : Value) (easedProgress : ℚ) : Option CurValue :=
  match fromVal, toVal with
  | Value.num a, Value.num b => some (CurValue.num (a + (b - a) * easedProgress))
  | Value.arr xs, Value.arr ys =>
      some (CurValue.arr ((List.range xs.length).map (fun i =>
        match xs.get? i, ys.get? i with
        | some fromV, some toV => some (fromV + (toV - fromV) * easedProgress)
        | _, _ => none)))
  | _, _ => none

/-- The signed time advance of a tick (line 316):
`currentTime + deltaTime * (reverse ? -1 : 1)`. -/
def tickCurrentTime (deltaTime : ℚ) (animation : Tween) : ℚ :=
  animation.currentTime + deltaTime * (if animation.reverse = true then -1 else 1)

/-- The clamped progress a playing tween reaches on a tick (line 319):
`Math.max(0, Math.min(1, currentTime / duration))`. -/
def tickProgress (deltaTime : ℚ) (animation : Tween) : ℚ :=
  jsMax 0 (jsMin 1 (tickCurrentTime deltaTime animation / animation.duration))

/-- The per-tween body of `updateAnimations` (lines 316-352), for a tween
that passed the `isPlaying && !isComplete` guard.  Returns the updated
tween, the recorded callback invocations, and whether `onUpdate` threw
(line 334 has no try/catch, so a throw propagates to the caller and the
terminal check at lines 337-351 is never reached). -/
def stepTween (deltaTime : ℚ) (key : String) (animation : Tween) :
    Tween × List Event × Bool :=
  let currentTime := tickCurrentTime deltaTime animation
  let progress := tickProgress deltaTime animation
  let easedProgress := animation.easing progress
  let currentValue :=
    match interpValue animation.fromVal animation.toVal easedProgress with
    | some v => some v
    | none => animation.currentValue
  let a1 : Tween :=
    { animation with currentTime := currentTime, progress := progress, currentValue := currentValue }
  let evs := [Event.update key currentValue easedProgress]
  if animation.onUpdateThrows = true then
    (a1, evs, true)
  else if (animation.reverse = false ∧ 1 ≤ progress) ∨ (animation.reverse = true ∧ progress ≤ 0) then
    if animation.yoyo = true then
      let newReverse := !animation.reverse
      ({ a1 with reverse := newReverse,
                 currentTime := if newReverse = true then animation.duration else 0 }, evs, false)
    else if animation.repeatCount < animation.«repeat» then
      ({ a1 with repeatCount := animation.repeatCount + 1, currentTime := 0, progress := 0 },
       evs, false)
    else
      ({ a1 with isComplete := true, isPlaying := false }, evs ++ [Event.complete key], false)
  else
    (a1, evs, false)

/-- `updateAnimations(deltaTime)` (lines 311-354): iterate the registry in
insertion order; skip entries failing `isPlaying && !isComplete`
(line 313); a throw from `onUpdate` aborts the iteration, leaving every
later entry untouched (third component `true`). -/
def updateAnimations (deltaTime : ℚ) :
    List (String × Tween) → List (String × Tween) × List Event × Bool
  | [] => ([], [], false)
  | (key, animation) :: rest =>
      if animation.isPlaying = false ∨ animation.isComplete = true then
        let r := updateAnimations deltaTime rest
        ((key, animation) :: r.1, r.2.1, r.2.2)
      else
        let s := stepTween deltaTime key animation
        if s.2.2 = true then
          ((key, s.1) :: rest, s.2.1, true)
        else
          let r := updateAnimations deltaTime rest
          ((key, s.1) :: r.1, s.2.1 ++ r.2.1, r.2.2)

/-- A per-frame callback registered via `addAnimationCallback`; external
code, observable only through its identity and whether it throws. -/
structure FrameCallback where
  id : Nat
  throws : Bool := false
deriving DecidableEq

/-- `addAnimationCallback(callback)` (lines 411-414): push and return
`length - 1`, the position of the pushed callback at registration time. -/
def addAnimationCallback (callback : FrameCallback)
    (animationCallbacks : List FrameCallback) : List FrameCallback × Nat :=
  (animationCallbacks ++ [callback], animationCallbacks.length)

/-- `removeAnimationCallback(index)` (lines 416-418): `splice(index, 1)`,
i.e. remove whatever currently sits at that position (no-op past the end). -/
def removeAnimationCallback (index : Nat)
    (animationCallbacks : List FrameCallback) : List FrameCallback :=
  animationCallbacks.eraseIdx index

/-- The loop body of `executeAnimationCallbacks` (lines 356-365).
`Array.prototype.forEach` fixes the iteration bound to the array's length
at entry and visits index `k` only while the (possibly shrunk) array still
has an element there; the `catch` block splices the throwing callback out
at its current index, shifting every later callback one slot left.
`n` counts the iterations left (`n = len - k`), giving structural
recursion.  Returns the surviving callback list and the ids invoked. -/
def execLoop (k n : Nat) (callbacks : List FrameCallback) (invoked : List Nat) :
    List FrameCallback × List Nat :=
  match n with
  | 0 => (callbacks, invoked)
  | n' + 1 =>
      match callbacks.get? k with
      | none => execLoop (k + 1) n' callbacks invoked
      | some c =>
          if c.throws = true then
            execLoop (k + 1) n' (callbacks.eraseIdx k) (invoked ++ [c.id])
          else
            execLoop (k + 1) n' callbacks (invoked ++ [c.id])

/-- `executeAnimationCallbacks(deltaTime, timestamp)` (lines 356-365); the
two numeric arguments only get forwarded to the callbacks and do not
influence control flow, so they are dropped here. -/
def executeAnimationCallbacks (callbacks : List FrameCallback) :
    List FrameCallback × List Nat :=
  execLoop 0 callbacks.length callbacks []

/-- The controller state relevant to the frame loop (constructor,
lines 205-217): `timeScale = 1.0`, `isPaused = false`, `lastTimestamp = 0`,
`deltaTime = 0`, `maxDelta = 0.1`. -/
structure AnimationController where
  animations : List (String × Tween) := []
  animationCallbacks : List FrameCallback := []
  timeScale : ℚ := 1
  isPaused : Bool := false
  lastTimestamp : ℚ := 0
  deltaTime : ℚ := 0
  maxDelta : ℚ := 1/10

/-- One tick, the `animate` closure of `initAnimationLoop` (lines 220-243):
seed `lastTimestamp` when it is falsy (line 221; `0` is falsy, so a stored
timestamp `0` reads as unset); compute
`deltaTime = min((timestamp - lastTimestamp)/1000, maxDelta) * timeScale`
(line 224); when not paused run `updateAnimations` then
`executeAnimationCallbacks` (physics touches only the DOM).  A throw from a
tween's `onUpdate` propagates out of the tick: line 239
(`lastTimestamp = timestamp`) and the per-frame callbacks are never
reached, and the loop is not rescheduled (third component `true`).
Returns (new state, tween events, invoked per-frame callback ids, threw). -/
def animate (timestamp : ℚ) (c : AnimationController) :
    AnimationController × List Event × List Nat × Bool :=
  let lastTimestamp := if c.lastTimestamp = 0 then timestamp else c.lastTimestamp
  let deltaTime := jsMin ((timestamp - lastTimestamp) / 1000) c.maxDelta * c.timeScale
  if c.isPaused = true then
    ({ c with lastTimestamp := timestamp, deltaTime := deltaTime }, [], [], false)
  else
    let u := updateAnimations deltaTime c.animations
    if u.2.2 = true then
      ({ c with animations := u.1, deltaTime := deltaTime, lastTimestamp := lastTimestamp },
       u.2.1, [], true)
    else
      let e := executeAnimationCallbacks c.animationCallbacks
      ({ c with animations := u.1, animationCallbacks := e.1, deltaTime := deltaTime,
                lastTimestamp := timestamp },
       u.2.1, e.2, false)

/-- Feed a sequence of already-computed `deltaTime` values to
`updateAnimations`, accumulating the emitted events. -/
def applyDeltas : List ℚ → List (String × Tween) → List (String × Tween) × List Event
  | [], animations => (animations, [])
  | dt :: rest, animations =>
      let r := updateAnimations dt animations
      let s := applyDeltas rest r.1
      (s.1, r.2.1 ++ s.2)

/-- How many times `onComplete` was invoked for `key` in an event list. -/
def countComplete (key : String) (events : List Event) : Nat :=
  events.countP (fun e => decide (e = Event.complete key))

/-- The spec invariant `0 ≤ progress ≤ 1` over a whole registry. -/
def ProgressInv (animations : List (String × Tween)) : Prop :=
  ∀ p ∈ animations, 0 ≤ p.2.progress ∧ p.2.progress ≤ 1

/-- The spec precondition `duration > 0` over a whole registry (with
`duration = 0` the source's `currentTime / duration` is `NaN`, which ℚ
cannot express; rational division by zero would silently give `0`). -/
def DurationPos (animations : List (String × Tween)) : Prop :=
  ∀ p ∈ animations, 0 < p.2.duration

/-- `from` / `to` shapes for which neither branch of lines 325-331 fires:
not both numbers and not both arrays. -/
def shapeMismatch : Value → Value → Bool
  | Value.num _, Value.num _ => false
  | Value.arr _, Value.arr _ => false
  | _, _ => true

/-! Concrete inputs used to exercise the operations. -/

/-- The config of the spec's fade scenario:
`{from: 0, to: 1, duration: 1.0, easing: 'easeInOutQuad'}`. -/
def fadeConfig : Config :=
  { fromVal := Value.num 0, toVal := Value.num 1, duration := 1,
    easing := some "easeInOutQuad" }

/-- Registry after `createAnimation('fade', ...)` and `playAnimation('fade')`. -/
def fadeReg1 : List (String × Tween) :=
  (playAnimation "fade" (createAnimation "fade" fadeConfig [])).1

/-- The fade scenario after its first tick (`deltaTime = 0`). -/
def fadeT1 : List (String × Tween) × List Event × Bool := updateAnimations 0 fadeReg1

/-- The fade scenario after its second tick (`deltaTime = 0.5`). -/
def fadeT2 : List (String × Tween) × List Event × Bool := updateAnimations (1/2) fadeT1.1

/-- The fade scenario after its third tick (`deltaTime = 0.5`). -/
def fadeT3 : List (String × Tween) × List Event × Bool := updateAnimations (1/2) fadeT2.1

/-- A config explicitly requesting `yoyo: true` and `repeat: 2`. -/
def cfgC1 : Config :=
  { fromVal := Value.num 0, toVal := Value.num 1, duration := 1,
    yoyo := some true, «repeat» := some 2 }

/-- Registry after `createAnimation('y', {from:0, to:1, duration:1,
yoyo:true, repeat:0})`. -/
def regY0 : List (String × Tween) :=
  createAnimation "y" { fromVal := Value.num 0, toVal := Value.num 1, duration := 1,
                        yoyo := some true, «repeat» := some 0 } []

/-- The yoyo scenario after `playAnimation('y')`. -/
def playY : List (String × Tween) × List Event := playAnimation "y" regY0

/-- The yoyo scenario run for 2 s of simulated ticks (0.5 s each). -/
def runY : List (String × Tween) × List Event :=
  applyDeltas [1/2, 1/2, 1/2, 1/2] playY.1

/-- A playing tween whose `onUpdate` callback throws. -/
def tThrower : Tween :=
  { fromVal := Value.num 0, toVal := Value.num 1, duration := 1, isPlaying := true,
    easing := easeInOutQuad, onUpdateThrows := true }

/-- A playing tween whose `onUpdate` callback behaves. -/
def tSecond : Tween :=
  { fromVal := Value.num 0, toVal := Value.num 1, duration := 1, isPlaying := true,
    easing := easeInOutQuad }

/-- A registry whose first tween throws from `onUpdate` and whose second is
an ordinary playing tween. -/
def regC2 : List (String × Tween) := [("a", tThrower), ("b", tSecond)]

/-- A playing tween used to witness the progress invariant. -/
def tDemo : Tween :=
  { fromVal := Value.num 0, toVal := Value.num 1, duration := 1, isPlaying := true,
    easing := easeInOutQuad }

/-- A one-tween registry used to witness the progress invariant. -/
def regDemo : List (String × Tween) := [("d", tDemo)]

/-- A playing tween whose `from` is a scalar but whose `to` is an array. -/
def tMismatch : Tween :=
  { fromVal := Value.num 0, toVal := Value.arr [10, 20], duration := 1, isPlaying := true,
    easing := easeInOutQuad }

/-- A per-frame callback (id 0) that throws when invoked. -/
def cbZero : FrameCallback := { id := 0, throws := true }

/-- A well-behaved per-frame callback, id 1. -/
def cbOne : FrameCallback := { id := 1, throws := false }

/-- A well-behaved per-frame callback, id 2. -/
def cbTwo : FrameCallback := { id := 2, throws := false }

/-- Callback list registered for the throwing-callback scenario. -/
def cbsC3 : List FrameCallback := [cbZero, cbOne, cbTwo]

/-- First tick's `executeAnimationCallbacks` over `cbsC3`. -/
def c3tick1 : List FrameCallback × List Nat := executeAnimationCallbacks cbsC3

/-- Second tick's `executeAnimationCallbacks`, over what survived tick 1. -/
def c3tick2 : List FrameCallback × List Nat := executeAnimationCallbacks c3tick1.1

/-- A well-behaved per-frame callback, id 10. -/
def cbA : FrameCallback := { id := 10, throws := false }

/-- A well-behaved per-frame callback, id 20. -/
def cbB : FrameCallback := { id := 20, throws := false }

/-- A well-behaved per-frame callback, id 30. -/
def cbC : FrameCallback := { id := 30, throws := false }

/-- The handle returned by registering `cbA` into an empty list. -/
def handleA : Nat := (addAnimationCallback cbA []).2

/-- The handle returned by registering `cbB` after `cbA`. -/
def handleB : Nat := (addAnimationCallback cbB (addAnimationCallback cbA []).1).2

/-- The callback list after registering `cbA`, `cbB`, `cbC` in order. -/
def cbList3 : List FrameCallback :=
  (addAnimationCallback cbC (addAnimationCallback cbB (addAnimationCallback cbA []).1).1).1

/-- A freshly constructed controller (all constructor defaults). -/
def ctrl0 : AnimationController := {}

/-- A controller as it stands after a previous tick at timestamp 1000 ms. -/
def ctrlC7 : AnimationController := { lastTimestamp := 1000 }

/-- Registry after `createAnimation('k', {from:0, to:1, duration:1})`. -/
def regK0 : List (String × Tween) :=
  createAnimation "k" { fromVal := Value.num 0, toVal := Value.num 1, duration := 1 } []

/-- First `playAnimation('k')`. -/
def playK1 : List (String × Tween) × List Event := playAnimation "k" regK0

/-- Two ticks of 0.5 s; the tween completes on the second one. -/
def runK1 : List (String × Tween) × List Event := applyDeltas [1/2, 1/2] playK1.1

/-- `playAnimation('k')` again, on the now-completed tween. -/
def playK2 : List (String × Tween) × List Event := playAnimation "k" runK1.1

/-- One more 0.5 s tick after the re-play. -/
def runK2 : List (String × Tween) × List Event := applyDeltas [1/2] playK2.1

/-! Helper lemmas shared by the claim theorems. -/

theorem jsMin_eq_min (a b : ℚ) : jsMin a b = min a b := by
  rw [jsMin, min_def]

theorem jsMax_eq_max (a b : ℚ) : jsMax a b = max a b := by
  rw [jsMax, max_def]
  rcases le_total a b with h | h
  · rcases eq_or_lt_of_le h with h2 | h2
    · simp [h, h2]
    · simp [h, not_le.mpr h2]
  · rcases eq_or_lt_of_le h with h2 | h2
    · simp [h, h2.symm]
    · simp [h, not_le.mpr h2, le_of_lt h2]

theorem clamp01_nonneg (x : ℚ) : 0 ≤ jsMax 0 (jsMin 1 x) := by
  rw [jsMax_eq_max]; exact le_max_left 0 _

theorem clamp01_le_one (x : ℚ) : jsMax 0 (jsMin 1 x) ≤ 1 := by
  rw [jsMax_eq_max, jsMin_eq_min]
  exact max_le (by norm_num) (min_le_left 1 x)

theorem stepTween_progress_bounds (dt : ℚ) (key : String) (t : Tween) :
    0 ≤ (stepTween dt key t).1.progress ∧ (stepTween dt key t).1.progress ≤ 1 := by
  simp only [stepTween]
  split_ifs <;>
    first
      | exact ⟨clamp01_nonneg _, clamp01_le_one _⟩
      | exact ⟨le_refl 0, by norm_num⟩

theorem stepTween_duration (dt : ℚ) (key : String) (t : Tween) :
    (stepTween dt key t).1.duration = t.duration := by
  simp only [stepTween]
  split_ifs <;> rfl

theorem stepTween_threw (dt : ℚ) (key : String) (t : Tween) :
    (stepTween dt key t).2.2 = t.onUpdateThrows := by
  simp only [stepTween]
  split_ifs with h1 <;> simp [h1]

theorem updateAnimations_progressInv (dt : ℚ) (a : List (String × Tween))
    (h : ProgressInv a) : ProgressInv (updateAnimations dt a).1 := by
  induction a with
  | nil => intro p hp; simp [updateAnimations] at hp
  | cons hd tl ih =>
      obtain ⟨key, t⟩ := hd
      have htl : ProgressInv tl := fun q hq => h q (List.mem_cons_of_mem _ hq)
      have hhd : 0 ≤ t.progress ∧ t.progress ≤ 1 := h (key, t) (List.mem_cons_self _ _)
      simp only [updateAnimations]
      split_ifs with h1 h2
      · intro p hp
        rcases List.mem_cons.mp hp with h3 | h3
        · subst h3; exact hhd
        · exact ih htl p h3
      · intro p hp
        rcases List.mem_cons.mp hp with h3 | h3
        · subst h3; exact stepTween_progress_bounds dt key t
        · exact htl p h3
      · intro p hp
        rcases List.mem_cons.mp hp with h3 | h3
        · subst h3; exact stepTween_progress_bounds dt key t
        · exact ih htl p h3

theorem updateAnimations_durationPos (dt : ℚ) (a : List (String × Tween))
    (h : DurationPos a) : DurationPos (updateAnimations dt a).1 := by
  induction a with
  | nil => intro p hp; simp [updateAnimations] at hp
  | cons hd tl ih =>
      obtain ⟨key, t⟩ := hd
      have htl : DurationPos tl := fun q hq => h q (List.mem_cons_of_mem _ hq)
      have hhd : 0 < t.duration := h (key, t) (List.mem_cons_self _ _)
      simp only [updateAnimations]
      split_ifs with h1 h2
      · intro p hp
        rcases List.mem_cons.mp hp with h3 | h3
        · subst h3; exact hhd
        · exact ih htl p h3
      · intro p hp
        rcases List.mem_cons.mp hp with h3 | h3
        · subst h3; simpa [stepTween_duration] using hhd
        · exact htl p h3
      · intro p hp
        rcases List.mem_cons.mp hp with h3 | h3
        · subst h3; simpa [stepTween_duration] using hhd
        · exact ih htl p h3

theorem applyDeltas_frozen (deltas : List ℚ) (key : String) (t : Tween)
    (h : t.isComplete = true) : applyDeltas deltas [(key, t)] = ([(key, t)], []) := by
  induction deltas with
  | nil => rfl
  | cons d ds ih =>
      simp only [applyDeltas, updateAnimations, if_pos (Or.inr h)]
      simp [ih]

theorem countComplete_append (key : String) (a b : List Event) :
    countComplete key (a ++ b) = countComplete key a + countComplete key b := by
  simp [countComplete, List.countP_append]

theorem stepTween_complete_count (dt : ℚ) (key : String) (t : Tween)
    (h : t.isComplete = false) :
    countComplete key (stepTween dt key t).2.1 =
      (if (stepTween dt key t).1.isComplete = true then 1 else 0) := by
  simp only [stepTween]
  split_ifs with h1 h2 h3 h4 <;> simp_all [countComplete]

/-! Claim theorems. -/

/-- Claim C1: the recognized config options `yoyo` and `repeat` are NOT
honored by `createAnimation`.  Evaluating the code at the failing input
`createAnimation('k', {from:0, to:1, duration:1, yoyo:true, repeat:2})`
shows the registered tween carries `yoyo = false` and `repeat = 0`: the
object literal at lines 249-263 lists `yoyo: false` and `repeat: 0` after
`...config`, so the config values are silently discarded (which also makes
the yoyo and repeat branches at lines 340-346 unreachable through the
public API). -/
theorem c1_createAnimation_discards_yoyo_and_repeat :
    cfgC1.yoyo = some true ∧ cfgC1.«repeat» = some 2 ∧
    (mapGet "k" (createAnimation "k" cfgC1 [])).map Tween.yoyo = some false ∧
    (mapGet "k" (createAnimation "k" cfgC1 [])).map Tween.«repeat» = some 0 := by
  decide

/-- Claim C5: the fade scenario behaves as specified.  After
`createAnimation('fade', {from:0, to:1, duration:1.0,
easing:'easeInOutQuad'})`, `playAnimation('fade')` and ticks with
`deltaTime` values `[0, 0.5, 0.5]`: progress is `0` after tick 1, progress
is `0.5` with `easedProgress = 0.5` (observed in the `onUpdate` invocation)
after tick 2, progress is `1` with `isComplete = true` after tick 3, and
`onComplete` fires exactly once over the three ticks. -/
theorem c5_fade_scenario :
    (mapGet "fade" fadeT1.1).map Tween.progress = some 0 ∧
    (mapGet "fade" fadeT2.1).map Tween.progress = some (1/2) ∧
    Event.update "fade" (some (CurValue.num (1/2))) (1/2) ∈ fadeT2.2.1 ∧
    (mapGet "fade" fadeT3.1).map Tween.progress = some 1 ∧
    (mapGet "fade" fadeT3.1).map Tween.isComplete = some true ∧
    countComplete "fade" (fadeT1.2.1 ++ fadeT2.2.1 ++ fadeT3.2.1) = 1 := by
  decide

/-- Claim C8: a tween created through `createAnimation` with `yoyo: true`,
`repeat: 0`, `duration: 1` does NOT yoyo.  Because `createAnimation`
discards the configured `yoyo` (see lines 250-257), the registered tween
has `yoyo = false`; played and run for 2 s of simulated ticks it reaches
`isComplete = true` with `progress = 1` instead of flipping direction and
returning to progress 0 without completing. -/
theorem c8_yoyo_tween_completes_anyway :
    (mapGet "y" regY0).map Tween.yoyo = some false ∧
    (mapGet "y" runY.1).map Tween.isComplete = some true ∧
    (mapGet "y" runY.1).map Tween.progress = some 1 := by
  decide

/-- Claim C10: handles returned by `addAnimationCallback` are positions,
and removal shifts later positions.  Registering callbacks A, B, C returns
handles 0, 1, 2; after `removeAnimationCallback(0)` (A's handle), calling
`removeAnimationCallback(1)` with B's handle removes C instead of B: the
final list is exactly `[B]`. -/
theorem c10_remove_by_stale_handle :
    handleA = 0 ∧ handleB = 1 ∧ cbList3 = [cbA, cbB, cbC] ∧
    removeAnimationCallback handleB (removeAnimationCallback handleA cbList3) = [cbB] ∧
    cbB ∈ removeAnimationCallback handleB (removeAnimationCallback handleA cbList3) ∧
    cbC ∉ removeAnimationCallback handleB (removeAnimationCallback handleA cbList3) := by
  decide

/-- Claim C2, counterexample: with two playing tweens "a" (whose `onUpdate`
throws) and "b", one tick with `deltaTime = 0.1` reports the exception as
propagated (no try/catch around line 334) and leaves "b" entirely
unadvanced: its `currentTime` is still `0`, not the `0.1` the claim's
"every other playing tween still advances" would require. -/
theorem c2_counterexample_later_tween_frozen :
    (updateAnimations (1/10) regC2).2.2 = true ∧
    (mapGet "b" (updateAnimations (1/10) regC2).1).map Tween.currentTime = some 0 ∧
    (mapGet "b" (updateAnimations (1/10) regC2).1).map Tween.currentTime ≠ some (1/10) := by
  decide

/-- Claim C3, counterexample: with registered callbacks `[0 (throws), 1, 2]`,
the tick invokes ids `[0, 2]` only.  Callback 1 is registered, does not
throw, and survives the tick, yet is NOT invoked during the tick in which
callback 0 threw: the `splice` at line 362 shifts it into the slot `forEach`
has already passed. -/
theorem c3_counterexample_successor_skipped :
    c3tick1.2 = [0, 2] ∧ cbOne ∈ c3tick1.1 ∧ cbOne.throws = false ∧
    (1 : Nat) ∉ c3tick1.2 := by
  decide

/-- Claim C3, amended: the throwing callback is deregistered during the
tick in which it throws and is not invoked on the next tick; the callback
immediately after it in the list is skipped for the remainder of that same
tick (removal shifts it into an already-visited index) but stays registered;
every other callback runs in the same tick, and on the next tick all
surviving callbacks (including the one that was skipped) run. -/
theorem c3_amended_two_tick_behavior :
    c3tick1.2 = [0, 2] ∧ c3tick1.1 = [cbOne, cbTwo] ∧
    c3tick2.2 = [1, 2] ∧ c3tick2.1 = [cbOne, cbTwo] := by
  decide

/-- Claim C6, counterexample: `onComplete` can fire twice for the same
tween.  Create `'k'` (from 0 to 1, duration 1), play it, tick 0.5 s twice
(first completion), call `playAnimation('k')` again — line 307 resets
`isComplete` to `false` while `currentTime` stays at 1 — and tick 0.5 s
once more: `onComplete` has now been invoked twice over the tween's
lifetime. -/
theorem c6_counterexample_onComplete_twice :
    countComplete "k" (playK1.2 ++ runK1.2 ++ playK2.2 ++ runK2.2) = 2 := by
  decide

/-- Claim C7, counterexample: two consecutive ticks at timestamps 0 ms and
5000 ms have a real elapsed gap of 5 s, yet the computed `deltaTime` is `0`
rather than `min(5, 0.1) * timeScale = 0.1`: after the first tick stored
`lastTimestamp = 0`, the falsy test at line 221 (`!this.lastTimestamp`)
treats it as unset and re-seeds it to the new timestamp. -/
theorem c7_counterexample_zero_timestamp :
    (animate 5000 (animate 0 ctrl0).1).1.deltaTime = 0 ∧
    (animate 5000 (animate 0 ctrl0).1).1.deltaTime ≠ min 5 (1/10) * ctrl0.timeScale := by
  refine ⟨by decide, ?_⟩
  have h0 : (animate 5000 (animate 0 ctrl0).1).1.deltaTime = 0 := by decide
  have h1 : ctrl0.timeScale = 1 := rfl
  rw [h0, h1, min_eq_right (by norm_num : (1:ℚ)/10 ≤ 5)]
  norm_num

/-- Claim C4: the progress invariant holds at the end of every tick.  For
every registry whose tweens have positive duration (the spec's data-model
precondition; with `duration = 0` the source computes `NaN`, which ℚ cannot
express) and whose progress fields start in `[0, 1]` (as `createAnimation`
guarantees), after any sequence of ticks with arbitrary `deltaTime` values
— in particular any non-negative real elapsed gaps under `maxDelta`
clamping — every registered tween's progress still lies in `[0, 1]`. -/
theorem c4_progress_always_clamped (deltas : List ℚ) (animations : List (String × Tween))
    (hdur : DurationPos animations) (hinv : ProgressInv animations) :
    ProgressInv (applyDeltas deltas animations).1 := by
  induction deltas generalizing animations with
  | nil => simpa [applyDeltas] using hinv
  | cons d ds ih =>
      simp only [applyDeltas]
      exact ih _ (updateAnimations_durationPos d animations hdur)
        (updateAnimations_progressInv d animations hinv)

/-- Witness for C4 at a concrete input: one playing tween of duration 1 and
two oversized ticks (5 s and 3 s). -/
theorem c4_progress_witness : ProgressInv (applyDeltas [5, 3] regDemo).1 :=
  c4_progress_always_clamped [5, 3] regDemo
    (by simp [DurationPos, regDemo, tDemo])
    (by simp [ProgressInv, regDemo, tDemo])

/-- Claim C6, amended: without an intervening `playAnimation` call,
`onComplete` fires at most once for a tween over any sequence of ticks
(after the completing tick the `isComplete` guard at line 313 skips the
tween forever); a further `playAnimation` on the completed tween re-arms it
(line 307 clears `isComplete`), after which `onComplete` can fire again, as
the counterexample shows. -/
theorem c6_amended_at_most_once_per_run (deltas : List ℚ) (key : String) (t : Tween) :
    countComplete key (applyDeltas deltas [(key, t)]).2 ≤ 1 := by
  induction deltas generalizing t with
  | nil => simp [applyDeltas, countComplete]
  | cons d ds ih =>
      simp only [applyDeltas]
      by_cases hskip : t.isPlaying = false ∨ t.isComplete = true
      · have hupd : updateAnimations d [(key, t)] = ([(key, t)], [], false) := by
          simp [updateAnimations, if_pos hskip]
        rw [hupd]
        simpa using ih t
      · have hpc : t.isComplete = false := by
          rcases not_or.mp hskip with ⟨h1, h2⟩
          revert h2; cases t.isComplete <;> simp
        have hupd : (updateAnimations d [(key, t)]).1 = [(key, (stepTween d key t).1)] ∧
            (updateAnimations d [(key, t)]).2.1 = (stepTween d key t).2.1 := by
          simp only [updateAnimations, if_neg hskip]
          split_ifs with hth
          · exact ⟨rfl, rfl⟩
          · simp [updateAnimations]
        rw [hupd.1, hupd.2, countComplete_append]
        cases hcomp : (stepTween d key t).1.isComplete with
        | true =>
            rw [applyDeltas_frozen ds key _ hcomp]
            have hcount := stepTween_complete_count d key t hpc
            rw [hcomp] at hcount
            simp [countComplete] at hcount ⊢
            simp [hcount]
        | false =>
            have hcount := stepTween_complete_count d key t hpc
            rw [hcomp] at hcount
            simp at hcount
            rw [hcount]
            simpa using ih (stepTween d key t).1

/-- Claim C2, amended: an exception thrown by a tween's `onUpdate` is NOT
caught — it propagates out of `updateAnimations` (reported by the `threw`
flag), so the tick is aborted: every tween after the thrower in iteration
order is left untouched, still in place as an unchanged suffix of the
registry.  (The throwing tween itself stays registered, with the partial
mutations of lines 316-331 applied.) -/
theorem c2_amended_onUpdate_throw_propagates (dt : ℚ) (pre : List (String × Tween))
    (key : String) (t : Tween) (rest : List (String × Tween))
    (hpre : ∀ p ∈ pre, p.2.onUpdateThrows = false)
    (hp : t.isPlaying = true) (hc : t.isComplete = false) (hthrow : t.onUpdateThrows = true) :
    (updateAnimations dt (pre ++ (key, t) :: rest)).2.2 = true ∧
    List.IsSuffix ((key, (stepTween dt key t).1) :: rest)
      (updateAnimations dt (pre ++ (key, t) :: rest)).1 := by
  induction pre with
  | nil =>
      simp only [List.nil_append, updateAnimations]
      rw [if_neg (by simp [hp, hc])]
      rw [if_pos (by rw [stepTween_threw]; exact hthrow)]
      exact ⟨rfl, ⟨[], rfl⟩⟩
  | cons hd pre ih =>
      obtain ⟨k0, t0⟩ := hd
      have h0 : t0.onUpdateThrows = false := hpre (k0, t0) (List.mem_cons_self _ _)
      have hpre2 : ∀ p ∈ pre, p.2.onUpdateThrows = false :=
        fun p hq => hpre p (List.mem_cons_of_mem _ hq)
      obtain ⟨ihThrew, pre2, ihReg⟩ := ih hpre2
      simp only [List.cons_append, updateAnimations]
      by_cases hskip : t0.isPlaying = false ∨ t0.isComplete = true
      · rw [if_pos hskip]
        exact ⟨ihThrew, ⟨(k0, t0) :: pre2, by simp [ihReg]⟩⟩
      · rw [if_neg hskip]
        rw [if_neg (by rw [stepTween_threw]; simp [h0])]
        exact ⟨ihThrew, ⟨(k0, (stepTween dt k0 t0).1) :: pre2, by simp [ihReg]⟩⟩

/-- Witness for C2's amended theorem at a concrete input: a well-behaved
playing tween "x" ahead of the throwing tween "a", empty suffix. -/
theorem c2_amended_witness :
    (updateAnimations 1 ([("x", tSecond)] ++ ("a", tThrower) :: [])).2.2 = true ∧
    List.IsSuffix (("a", (stepTween 1 "a" tThrower).1) :: [])
      (updateAnimations 1 ([("x", tSecond)] ++ ("a", tThrower) :: [])).1 :=
  c2_amended_onUpdate_throw_propagates 1 [("x", tSecond)] "a" tThrower []
    (by decide) (by decide) (by decide) (by decide)

/-- Claim C7, amended: for every pair of consecutive ticks whose earlier
timestamp is nonzero (a stored `lastTimestamp` of `0` is falsy and gets
re-seeded, see the counterexample) and whose real elapsed gap is `g`
seconds, the computed `deltaTime` equals `min(g, 0.1) * timeScale`
(`maxDelta` holding its constructor value `0.1`), and for a non-negative
`timeScale` it never exceeds `0.1 * timeScale`. -/
theorem c7_amended_delta_clamped (c : AnimationController) (g : ℚ)
    (hlast : c.lastTimestamp ≠ 0) (hmax : c.maxDelta = 1/10) (hts : 0 ≤ c.timeScale) :
    (animate (c.lastTimestamp + 1000 * g) c).1.deltaTime = min g (1/10) * c.timeScale ∧
    (animate (c.lastTimestamp + 1000 * g) c).1.deltaTime ≤ 1/10 * c.timeScale := by
  have harg : (c.lastTimestamp + 1000 * g - c.lastTimestamp) / 1000 = g := by ring
  have key : (animate (c.lastTimestamp + 1000 * g) c).1.deltaTime = min g (1/10) * c.timeScale := by
    simp only [animate, if_neg hlast]
    split_ifs <;> dsimp only <;> rw [jsMin_eq_min, harg, hmax]
  refine ⟨key, ?_⟩
  rw [key]
  exact mul_le_mul_of_nonneg_right (min_le_right g (1/10)) hts

/-- Witness for C7's amended theorem at a concrete input: previous tick at
1000 ms, gap 5 s, default `timeScale = 1`, `maxDelta = 0.1`. -/
theorem c7_amended_delta_witness :
    (animate (ctrlC7.lastTimestamp + 1000 * 5) ctrlC7).1.deltaTime = min 5 (1/10) * ctrlC7.timeScale ∧
    (animate (ctrlC7.lastTimestamp + 1000 * 5) ctrlC7).1.deltaTime ≤ 1/10 * ctrlC7.timeScale :=
  c7_amended_delta_clamped ctrlC7 5 (by decide) (by decide) (by decide)

theorem interpValue_eq_none_of_mismatch (f t : Value) (h : shapeMismatch f t = true) (e : ℚ) :
    interpValue f t e = none := by
  cases f <;> cases t
  · exact absurd h (by simp [shapeMismatch])
  · rfl
  · rfl
  · exact absurd h (by simp [shapeMismatch])

/-- Claim C9: for a playing, non-complete tween whose `from` / `to` are not
both numbers and not both arrays, a tick leaves `currentValue` exactly as
it was (unassigned `none`, or stale from an earlier tick — lines 325-331
have no else branch), raises no error, and still invokes `onUpdate` with
that unassigned or stale `currentValue` (line 334 runs unconditionally). -/
theorem c9_shape_mismatch_keeps_stale_value (dt : ℚ) (key : String) (t : Tween)
    (hp : t.isPlaying = true) (hc : t.isComplete = false)
    (hn : t.onUpdateThrows = false) (hm : shapeMismatch t.fromVal t.toVal = true) :
    (stepTween dt key t).1.currentValue = t.currentValue ∧
    (stepTween dt key t).2.2 = false ∧
    Event.update key t.currentValue (t.easing (tickProgress dt t)) ∈ (stepTween dt key t).2.1 := by
  simp only [stepTween, interpValue_eq_none_of_mismatch t.fromVal t.toVal hm]
  split_ifs with h1 h2 h3 h4 <;> simp_all

/-- Witness for C9 at a concrete input: `from = 0` (a scalar) paired with
`to = [10, 20]` (an array), one 0.5 s tick. -/
theorem c9_shape_mismatch_witness :
    (stepTween (1/2) "m" tMismatch).1.currentValue = tMismatch.currentValue ∧
    (stepTween (1/2) "m" tMismatch).2.2 = false ∧
    Event.update "m" tMismatch.currentValue (tMismatch.easing (tickProgress (1/2) tMismatch))
      ∈ (stepTween (1/2) "m" tMismatch).2.1 :=
  c9_shape_mismatch_keeps_stale_value (1/2) "m" tMismatch
    (by decide) (by decide) (by decide) (by decide)

end NasaAnim
